import Mathlib

/-!
Verification of the Usage & Context Tracking Engine of the
xfce4-claude-status-plugin repository (src/claude-status.c), against its
natural-language specification.

The development shallowly embeds the C plugin's core logic:
  * JSON documents are modelled by the inductive `Json`, with member lookup
    functions mirroring the json-glib accessors used by the source
    (`json_object_get_string_member` returns a string only when the member
    exists and holds a string, and so on).
  * The plugin's cached data (the `ClaudeStatusPlugin` struct's data fields)
    is the structure `PluginState`; percentages (C `gdouble`) are modelled
    as rationals, `gint64` token counters as `Int`, `time_t`/`GTimeSpan`
    instants as `Int` microseconds.
  * The filesystem inputs (credentials file, `~/.claude/projects` tree) and
    the GLib library functions `g_date_time_new_from_iso8601` and
    `g_date_time_format` are supplied through an environment `Env`;
    transcripts are modelled as already-readable line lists (each line either
    parses to a `Json` value or fails to parse).
  * One poll tick (timer callback -> `claude_status_fetch_usage` -> async
    `on_usage_response`, possibly re-fetching on 401) is the function
    `runTick`, driven by a list of HTTP results; UI label updates
    (`claude_status_update`) read the state but never write the data fields
    and are not modelled.
-/

/-- A parsed JSON value, as handled by json-glib in the source. json-glib
distinguishes integer nodes from double nodes, which matters for
`json_object_get_string_member` (string nodes only) versus the numeric
accessors. -/
inductive Json where
  | null
  | bool (b : Bool)
  | int (n : Int)
  | num (q : ℚ)
  | str (s : String)
  | arr (elems : List Json)
  | obj (members : List (String × Json))

/-- Member lookup in a JSON object (first binding wins), the common core of
the `json_object_get_*_member` accessors. -/
def getMember : List (String × Json) → String → Option Json
  | [], _ => none
  | (k, v) :: rest, key => if k = key then some v else getMember rest key

/-- `json_object_get_object_member`: the member's object, or NULL (none) when
the member is absent or not an object. -/
def getObjectMember (kvs : List (String × Json)) (key : String) :
    Option (List (String × Json)) :=
  match getMember kvs key with
  | some (.obj o) => some o
  | _ => none

/-- `json_object_get_string_member`: the member's string, or NULL (none) when
the member is absent or not a string node (an integer-valued member yields
NULL here). -/
def getStringMember (kvs : List (String × Json)) (key : String) : Option String :=
  match getMember kvs key with
  | some (.str s) => some s
  | _ => none

/-- Truncation toward zero, the C cast semantics from double to gint64. -/
def ratTrunc (q : ℚ) : Int := if q < 0 then -(⌊-q⌋) else ⌊q⌋

/-- `json_object_get_int_member`: the member's integer value, 0 when absent
or non-numeric (the accessor emits a warning and yields 0 in that case). -/
def getIntMember (kvs : List (String × Json)) (key : String) : Int :=
  match getMember kvs key with
  | some (.int n) => n
  | some (.num q) => ratTrunc q
  | _ => 0

/-- `json_object_get_double_member`: the member's numeric value as a double,
0 when absent or non-numeric. -/
def getDoubleMember (kvs : List (String × Json)) (key : String) : ℚ :=
  match getMember kvs key with
  | some (.num q) => q
  | some (.int n) => (n : ℚ)
  | _ => 0

/-- `g_strstr_len(haystack, -1, needle) != NULL`: byte-for-byte (hence
case-sensitive) substring search. -/
def hasSubstring (needle : List Char) : List Char → Bool
  | [] => needle.isEmpty
  | c :: rest => needle.isPrefixOf (c :: rest) || hasSubstring needle rest

/-- The credentials file as read from disk: missing, present but unreadable,
or readable with `some` parsed JSON (none when `json_parser_load_from_data`
fails). `g_file_get_contents` fails on both `missing` and `unreadable`;
`validate_creds_file` distinguishes them via `g_file_test`. -/
inductive FileRead where
  | missing
  | unreadable
  | readOk (parsed : Option Json)

/-- Result of `load_credentials` (src/claude-status.c lines 197-256): the
values written into `data->access_token` / `data->plan_name`, and the
returned gboolean. -/
structure LoadOutcome where
  accessToken : Option String
  planName : Option String
  ok : Bool
  deriving DecidableEq

/-- `load_credentials` (lines 197-256). It first frees and NULLs the cached
token and plan name, then reads and parses the file; the returned
`LoadOutcome` is the final content of those two fields plus the gboolean
result. The source's separate `json_object_has_member` check followed by
`json_object_get_object_member` collapses to the single `getObjectMember`
match (absent member and non-object member both return FALSE with both
fields still NULL). -/
def load_credentials (file : FileRead) : LoadOutcome :=
  match file with
  | .missing => ⟨none, none, false⟩
  | .unreadable => ⟨none, none, false⟩
  | .readOk none => ⟨none, none, false⟩
  | .readOk (some root) =>
    match root with
    | .obj kvs =>
      match getObjectMember kvs "claudeAiOauth" with
      | none => ⟨none, none, false⟩
      | some oauth =>
        let token := getStringMember oauth "accessToken"
        let plan :=
          match getStringMember oauth "subscriptionType" with
          | some sub =>
            if hasSubstring "max".toList sub.toList then some "Max"
            else if hasSubstring "pro".toList sub.toList then some "Pro"
            else none
          | none => none
        ⟨token, plan, token.isSome⟩
    | _ => ⟨none, none, false⟩

/-- The spec's error taxonomy mapped onto `load_credentials`' failure
branches: the file-read failure (source line 207) is `NoCredentials`; every
later failure (unparsable data, wrong structure, missing token) is
`InvalidCredentials`. -/
inductive CredentialError where
  | NoCredentials
  | InvalidCredentials
  deriving DecidableEq

/-- Classification of a `load_credentials` run by its failure branch:
`none` on success, otherwise the spec-level error of the branch taken. -/
def load_error_kind (file : FileRead) : Option CredentialError :=
  if (load_credentials file).ok then none
  else
    match file with
    | .missing => some .NoCredentials
    | .unreadable => some .NoCredentials
    | .readOk _ => some .InvalidCredentials

/-- Result of `validate_creds_file`: TRUE, or FALSE with the error message
written through `error_msg`. -/
inductive ValidateRes where
  | valid
  | invalid (msg : String)
  deriving DecidableEq

/-- `validate_creds_file` (src/claude-status.c lines 929-980). Unlike
`load_credentials` it rejects an empty access token (`strlen(token) == 0`).
It calls `json_node_get_object` without a `JSON_NODE_HOLDS_OBJECT` check; on
a non-object root the subsequent member lookup yields NULL, reported as a
missing `claudeAiOauth` section. -/
def validate_creds_file (file : FileRead) : ValidateRes :=
  match file with
  | .missing => .invalid "File does not exist"
  | .unreadable => .invalid "Cannot read file"
  | .readOk none => .invalid "Invalid JSON"
  | .readOk (some root) =>
    let oauth :=
      match root with
      | .obj kvs => getObjectMember kvs "claudeAiOauth"
      | _ => none
    match oauth with
    | none => .invalid "Missing claudeAiOauth section"
    | some oauth_obj =>
      match getStringMember oauth_obj "accessToken" with
      | none => .invalid "Missing accessToken"
      | some token => if token = "" then .invalid "Missing accessToken" else .valid

/-- A transcript file inside one per-project directory: its directory entry
name, its `st_mtime`, and its lines (each line `some` parsed JSON or `none`
when `json_parser_load_from_data` fails on it). -/
structure TFile where
  name : String
  mtime : Nat
  lines : List (Option Json)

/-- One subdirectory of `~/.claude/projects`. -/
structure Project where
  name : String
  files : List TFile

/-- `entry->d_name[0] == '.'`: the hidden-entry check of the directory
walk, on the name's scalar list. -/
def isHiddenEntry (s : String) : Bool :=
  match s.toList with
  | [] => false
  | c :: _ => c == '.'

/-- `g_str_has_suffix(name, post)`, on the names' scalar lists. -/
def hasSuffixStr (s post : String) : Bool :=
  post.toList.isSuffixOf s.toList

/-- The update step of `find_latest_transcript`'s scan: keep a candidate only
when its mtime is strictly greater than the best seen so far (which starts
at 0). -/
def pickLatest (acc : Option TFile × Nat) (f : TFile) : Option TFile × Nat :=
  if acc.2 < f.mtime then (some f, f.mtime) else acc

/-- `find_latest_transcript` (src/claude-status.c lines 301-344): walk every
non-hidden project directory, and inside it every `.jsonl` file, tracking the
file with the strictly greatest modification time. -/
def find_latest_transcript (fs : List Project) : Option TFile :=
  (fs.foldl
    (fun acc p =>
      if isHiddenEntry p.name then acc
      else p.files.foldl
        (fun a f => if hasSuffixStr f.name ".jsonl" then pickLatest a f else a) acc)
    ((none : Option TFile), 0)).1

/-- `CONTEXT_WINDOW_DEFAULT` (200000 tokens). -/
def CONTEXT_WINDOW_DEFAULT : Int := 200000

/-- `CONTEXT_WINDOW_1M`, defined in the source but never returned. -/
def CONTEXT_WINDOW_1M : Int := 1000000

/-- `get_context_window_for_model` (lines 347-354): NULL model falls back to
the default; every named model also maps to the default (the source comment
acknowledges 1M-context models but defaults to 200K for safety). -/
def get_context_window_for_model (model : Option String) : Int :=
  match model with
  | none => CONTEXT_WINDOW_DEFAULT
  | some _ => CONTEXT_WINDOW_DEFAULT

/-- One iteration of the transcript-scanning loop of
`claude_status_read_context` (lines 380-417), acting on the running
`(last_input, last_cache_creation, last_cache_read, last_model)` values:
unparsable lines and non-"assistant" records are skipped; an assistant
record's `message.model` overwrites the model when present; its
`message.usage` overwrites all three token counters when present. -/
def scanStep (acc : Int × Int × Int × Option String) (l : Option Json) :
    Int × Int × Int × Option String :=
  match l with
  | none => acc
  | some root =>
    match root with
    | .obj kvs =>
      match getStringMember kvs "type" with
      | some ty =>
        if ty = "assistant" then
          match getObjectMember kvs "message" with
          | some msg =>
            let newModel :=
              match getStringMember msg "model" with
              | some m => some m
              | none => acc.2.2.2
            match getObjectMember msg "usage" with
            | some usage =>
              (getIntMember usage "input_tokens",
               getIntMember usage "cache_creation_input_tokens",
               getIntMember usage "cache_read_input_tokens",
               newModel)
            | none => (acc.1, acc.2.1, acc.2.2.1, newModel)
          | none => acc
        else acc
      | none => acc
    | _ => acc

/-- The whole scanning loop, starting from zero counters and no model. -/
def scanTranscript (lines : List (Option Json)) : Int × Int × Int × Option String :=
  lines.foldl scanStep (0, 0, 0, none)

/-- The three token counters of a scan accumulator. -/
def tripleOf (x : Int × Int × Int × Option String) : Int × Int × Int :=
  (x.1, x.2.1, x.2.2.1)

/-- `input + cache_creation + cache_read`. -/
def sumTriple (t : Int × Int × Int) : Int := t.1 + t.2.1 + t.2.2

/-- The data fields of the `ClaudeStatusPlugin` struct that the core logic
reads and writes (widgets, timers and configuration knobs are carried by the
environment or out of scope). -/
structure PluginState where
  accessToken : Option String
  planName : Option String
  fiveHourPctVal : ℚ
  sevenDayPctVal : ℚ
  fiveHourResetStr : Option String
  sevenDayResetStr : Option String
  fiveHourResetTime : Option String
  sevenDayResetTime : Option String
  contextPct : ℚ
  contextTokens : Int
  contextWindowSize : Int
  modelName : Option String
  lastUpdated : Option Int
  hasCredentialsError : Bool
  authRetryCount : Nat
  deriving DecidableEq

/-- The plugin's external inputs during one tick: the credentials file, the
transcript tree, the current instant, and the GLib date-time library
functions (`g_date_time_new_from_iso8601` as `isoParse`, returning the
parsed absolute instant in microseconds, and the two `g_date_time_format`
calls used for the tooltip strings). -/
structure Env where
  credsFile : FileRead
  fs : List Project
  isoParse : String → Option Int
  now : Int
  fmtClock : Int → String
  fmtDayClock : Int → String

/-- `claude_status_read_context` (lines 357-434). With no transcript found
only `context_pct` is reset to 0 (the early return skips the remaining
updates); otherwise the selected file is scanned and the token count, window
size, model name and clamped percentage are stored. -/
def claude_status_read_context (env : Env) (s : PluginState) : PluginState :=
  match find_latest_transcript env.fs with
  | none => { s with contextPct := 0 }
  | some file =>
    let scan := scanTranscript file.lines
    let total_context := scan.1 + scan.2.1 + scan.2.2.1
    let context_window := get_context_window_for_model scan.2.2.2
    let pct := (total_context : ℚ) / (context_window : ℚ) * 100
    { s with
      contextTokens := total_context,
      contextWindowSize := context_window,
      modelName := scan.2.2.2,
      contextPct := if 100 < pct then 100 else pct }

/-- `G_TIME_SPAN_MINUTE` in microseconds. -/
def G_TIME_SPAN_MINUTE : Int := 60000000

/-- `G_TIME_SPAN_HOUR` in microseconds. -/
def G_TIME_SPAN_HOUR : Int := 3600000000

/-- `G_TIME_SPAN_DAY` in microseconds. -/
def G_TIME_SPAN_DAY : Int := 86400000000

/-- The `five_hour_reset_str` formatting (lines 515-524): `Int.tdiv`/`Int.tmod`
truncate toward zero exactly like C's `/` and `%` on `gint64`. -/
def five_hour_reset_format (diff : Int) : String :=
  let hours := Int.tdiv diff G_TIME_SPAN_HOUR
  let mins := Int.tdiv (Int.tmod diff G_TIME_SPAN_HOUR) G_TIME_SPAN_MINUTE
  if 0 < hours then s!"({hours}h {mins}m)" else s!"({mins}m)"

/-- The `seven_day_reset_str` formatting (lines 546-555). -/
def seven_day_reset_format (diff : Int) : String :=
  let days := Int.tdiv diff G_TIME_SPAN_DAY
  let hours := Int.tdiv (Int.tmod diff G_TIME_SPAN_DAY) G_TIME_SPAN_HOUR
  if 0 < days then s!"({days}d {hours}h)" else s!"({hours}h)"

/-- The `five_hour` block of `on_usage_response` (lines 506-535): store the
utilization; then, only when `resets_at` is a *string* member that
`g_date_time_new_from_iso8601` accepts, recompute the relative reset string
and the tooltip reset time. -/
def applyFiveHour (env : Env) (fh : Option (List (String × Json)))
    (s : PluginState) : PluginState :=
  match fh with
  | none => s
  | some w =>
    let s1 := { s with fiveHourPctVal := getDoubleMember w "utilization" }
    match getStringMember w "resets_at" with
    | none => s1
    | some reset =>
      match env.isoParse reset with
      | none => s1
      | some reset_dt =>
        let diff := reset_dt - env.now
        { s1 with
          fiveHourResetStr := some (five_hour_reset_format diff),
          fiveHourResetTime := some (env.fmtClock reset_dt) }

/-- The `seven_day` block of `on_usage_response` (lines 537-566). -/
def applySevenDay (env : Env) (sd : Option (List (String × Json)))
    (s : PluginState) : PluginState :=
  match sd with
  | none => s
  | some w =>
    let s1 := { s with sevenDayPctVal := getDoubleMember w "utilization" }
    match getStringMember w "resets_at" with
    | none => s1
    | some reset =>
      match env.isoParse reset with
      | none => s1
      | some reset_dt =>
        let diff := reset_dt - env.now
        { s1 with
          sevenDayResetStr := some (seven_day_reset_format diff),
          sevenDayResetTime := some (env.fmtDayClock reset_dt) }

/-- An HTTP response body as seen by `on_usage_response`: either
`json_parser_load_from_data` fails on it, or it yields a JSON root. -/
inductive Body where
  | notJson
  | json (root : Json)

/-- The non-401 tail of `on_usage_response` (lines 485-582). On a parse
failure the error flag is untouched and the context is still re-scanned; on
a parse success the flag is cleared first, and then a non-object root
returns *early*, skipping both the window updates and the context re-scan;
an object root updates both windows, stamps `last_updated`, and re-scans the
context. -/
def handle_body (env : Env) (body : Body) (s : PluginState) : PluginState :=
  match body with
  | .notJson => claude_status_read_context env s
  | .json root =>
    let s2 := { s with hasCredentialsError := false }
    match root with
    | .obj kvs =>
      let s3 := applyFiveHour env (getObjectMember kvs "five_hour") s2
      let s4 := applySevenDay env (getObjectMember kvs "seven_day") s3
      let s5 := { s4 with lastUpdated := some env.now }
      claude_status_read_context env s5
    | _ => s2

/-- One completed HTTP attempt: cancelled, a transport failure (GError set),
or a response with a status code and body. -/
inductive HttpResult where
  | cancelled
  | transportError
  | response (status : Nat) (body : Body)

/-- `on_usage_response` (lines 437-583) as a state transformer; the returned
Bool records whether the handler issued a new fetch (the 401 retry path).
Cancelled and transport errors return early, leaving the state untouched.
A 401 with the retry counter already at its bound flips the credentials
error on and resets the counter; below the bound the counter is incremented,
the token dropped, and the credentials reloaded — retrying on success,
flipping the error flag on failure. Any other status resets the counter to 0
and processes the body. -/
def on_usage_response (env : Env) (r : HttpResult) (s : PluginState) :
    PluginState × Bool :=
  match r with
  | .cancelled => (s, false)
  | .transportError => (s, false)
  | .response status body =>
    if status = 401 then
      if 2 ≤ s.authRetryCount then
        ({ s with authRetryCount := 0, hasCredentialsError := true }, false)
      else
        let s1 := { s with authRetryCount := s.authRetryCount + 1,
                           accessToken := none }
        let lc := load_credentials env.credsFile
        let s2 := { s1 with accessToken := lc.accessToken, planName := lc.planName }
        if lc.ok then (s2, true)
        else ({ s2 with hasCredentialsError := true }, false)
    else
      (handle_body env body { s with authRetryCount := 0 }, false)

/-- `claude_status_fetch_usage` (lines 586-608) up to the point of sending
the request: with no cached token the credentials are loaded first (failure
sets the error flag and aborts; success clears it); the Bool records whether
a request was actually sent. -/
def claude_status_fetch_usage (env : Env) (s : PluginState) : PluginState × Bool :=
  if s.accessToken.isNone then
    let lc := load_credentials env.credsFile
    let s1 := { s with accessToken := lc.accessToken, planName := lc.planName }
    if lc.ok then ({ s1 with hasCredentialsError := false }, true)
    else ({ s1 with hasCredentialsError := true }, false)
  else (s, true)

/-- The effect of a bare `load_credentials(data)` call on the plugin state
(the two cached fields are overwritten with the load's outcome), paired with
the gboolean result. -/
def load_credentials_apply (env : Env) (s : PluginState) : PluginState × Bool :=
  let lc := load_credentials env.credsFile
  ({ s with accessToken := lc.accessToken, planName := lc.planName }, lc.ok)

/-- The response-processing loop of one tick: each outstanding request
consumes the next HTTP result; a 401-retry issues a new fetch (which always
sends, the reload having just succeeded) and continues with the remaining
results. -/
def processResponses (env : Env) : List HttpResult → PluginState → PluginState
  | [], s => s
  | r :: rest, s =>
    let res := on_usage_response env r s
    if res.2 then
      let fu := claude_status_fetch_usage env res.1
      if fu.2 then processResponses env rest fu.1 else fu.1
    else res.1

/-- One poll tick: `on_timeout` calls `claude_status_fetch_usage`, and the
responses (supplied as a list) are handled by `on_usage_response`,
re-fetching within the tick on the bounded 401-retry path. -/
def runTick (env : Env) (responses : List HttpResult) (s : PluginState) :
    PluginState :=
  let fu := claude_status_fetch_usage env s
  if fu.2 then processResponses env responses fu.1 else fu.1

/-- `get_color` (lines 135-140): thresholds are `gint` configuration values,
the percentage a double; the cutoffs are tested in sequence. The colors
correspond to the spec's severity tiers: green = Normal, yellow = Warning,
orange = Caution, red = Critical. -/
def get_color (yellow orange red : Int) (pct : ℚ) : String :=
  if pct < (yellow : ℚ) then "#5faf5f"
  else if pct < (orange : ℚ) then "#d7af5f"
  else if pct < (red : ℚ) then "#d78700"
  else "#d75f5f"

/-- Rank of a color in the severity order Normal < Warning < Caution <
Critical. -/
def colorRank : String → Nat
  | "#5faf5f" => 0
  | "#d7af5f" => 1
  | "#d78700" => 2
  | _ => 3

/-- Modelled from the spec's wording for the scanner ("for each record of
type assistant, if it carries a usage sub-object"): the token triple of a
qualifying record, `none` otherwise. -/
def qualUsage (l : Option Json) : Option (Int × Int × Int) :=
  match l with
  | some (.obj kvs) =>
    if getStringMember kvs "type" = some "assistant" then
      match getObjectMember kvs "message" with
      | some msg =>
        match getObjectMember msg "usage" with
        | some usage =>
          some (getIntMember usage "input_tokens",
                getIntMember usage "cache_creation_input_tokens",
                getIntMember usage "cache_read_input_tokens")
        | none => none
      | none => none
    else none
  | _ => none

/-- Abstract last-wins step on bare token triples. -/
def qualStep (t : Int × Int × Int) (l : Option Json) : Int × Int × Int :=
  (qualUsage l).getD t

/-- Modelled from the spec's wording: the token triple of the *last*
qualifying record of the transcript (later records overwrite earlier ones,
no accumulation). -/
def lastQualTriple (lines : List (Option Json)) : Option (Int × Int × Int) :=
  lines.foldl (fun a l => match qualUsage l with | some t => some t | none => a) none

/-- Modelled from the spec's wording: the transcript files eligible for
selection — those with the recognized suffix inside non-hidden per-project
directories, in traversal order. -/
def eligible_transcripts (fs : List Project) : List TFile :=
  ((fs.filter (fun p => !(isHiddenEntry p.name))).map
    (fun p => p.files.filter (fun f => hasSuffixStr f.name ".jsonl"))).flatten

/-- The plugin state right after `claude_status_construct`'s `g_new0` plus
the two empty reset strings it allocates. -/
def initialState : PluginState :=
  { accessToken := none, planName := none,
    fiveHourPctVal := 0, sevenDayPctVal := 0,
    fiveHourResetStr := some "", sevenDayResetStr := some "",
    fiveHourResetTime := none, sevenDayResetTime := none,
    contextPct := 0, contextTokens := 0, contextWindowSize := 0,
    modelName := none, lastUpdated := none,
    hasCredentialsError := false, authRetryCount := 0 }

/-- C1 inputs: a credentials file that always reloads successfully. -/
def c1_env : Env :=
  { credsFile := .readOk (some (.obj
      [("claudeAiOauth", .obj [("accessToken", .str "tok")])])),
    fs := [], isoParse := fun _ => none, now := 0,
    fmtClock := fun _ => "", fmtDayClock := fun _ => "" }

/-- C1 inputs: two auth failures, then a success. -/
def c1_responses : List HttpResult :=
  [.response 401 .notJson, .response 401 .notJson, .response 200 (.json (.obj []))]

/-- C1 inputs: three consecutive auth failures. -/
def c1_responses_fail : List HttpResult :=
  [.response 401 .notJson, .response 401 .notJson, .response 401 .notJson]

/-- C2 inputs: a transcript whose scan would yield 150 tokens. -/
def c2_transcript : TFile :=
  ⟨"t.jsonl", 5,
   [some (.obj [("type", .str "assistant"),
      ("message", .obj [("usage", .obj
        [("input_tokens", .int 100),
         ("cache_creation_input_tokens", .int 50),
         ("cache_read_input_tokens", .int 0)])])])]⟩

/-- C2 inputs: environment with that transcript available. -/
def c2_env : Env :=
  { credsFile := .unreadable, fs := [⟨"proj", [c2_transcript]⟩],
    isoParse := fun _ => none, now := 0,
    fmtClock := fun _ => "", fmtDayClock := fun _ => "" }

/-- C2 inputs: state with a previously stored five-hour window and a stale
context percentage of 0. -/
def c2_state : PluginState :=
  { initialState with fiveHourPctVal := 45, fiveHourResetStr := some "(1h 0m)" }

/-- C3 inputs: a well-formed credentials file with the given token and
subscription type. -/
def c3_oauth_file (tok sub : String) : FileRead :=
  .readOk (some (.obj [("claudeAiOauth",
    .obj [("accessToken", .str tok), ("subscriptionType", .str sub)])]))

/-- C3 inputs: a well-formed credentials file without a subscription type. -/
def c3_oauth_file_nosub (tok : String) : FileRead :=
  .readOk (some (.obj [("claudeAiOauth", .obj [("accessToken", .str tok)])]))

/-- C6 inputs: a credentials file whose access token is the empty string. -/
def c6_file : FileRead :=
  .readOk (some (.obj [("claudeAiOauth", .obj [("accessToken", .str "")])]))

/-- C6 inputs: a credentials file whose OAuth object lacks an access token. -/
def c6_file_notoken : FileRead :=
  .readOk (some (.obj [("claudeAiOauth", .obj [])]))

/-- C7 inputs: an environment whose ISO-8601 parser recognizes one timestamp
two hours past the current instant. -/
def c7_env : Env :=
  { credsFile := .unreadable, fs := [],
    isoParse := fun s => if s = "2031-01-01T02:00:00Z" then some 7200000000 else none,
    now := 0, fmtClock := fun _ => "2:00 AM", fmtDayClock := fun _ => "" }

/-- C7 inputs: state holding a previously formatted reset string. -/
def c7_state : PluginState :=
  { initialState with fiveHourResetStr := some "(old)" }

/-- C7 inputs: usage window whose reset instant is a Unix epoch integer. -/
def c7_w_int : List (String × Json) :=
  [("utilization", .num 50), ("resets_at", .int 7200)]

/-- C7 inputs: the same usage window with the reset instant as an ISO-8601
string denoting the same instant. -/
def c7_w_str : List (String × Json) :=
  [("utilization", .num 50), ("resets_at", .str "2031-01-01T02:00:00Z")]

/-- C5 inputs: environment with no project directories at all. -/
def c5_empty_env : Env :=
  { credsFile := .unreadable, fs := [], isoParse := fun _ => none, now := 0,
    fmtClock := fun _ => "", fmtDayClock := fun _ => "" }

/-- C5 inputs: state carrying token data from an earlier successful scan. -/
def c5_stale_state : PluginState :=
  { initialState with contextTokens := 500, contextPct := 1 / 4 }

/-- C5 inputs: older transcript file. -/
def c5_file_old : TFile := ⟨"old.jsonl", 1, []⟩

/-- C5 inputs: newer transcript file with two qualifying assistant records
(100+50+0 then 10+0+5 tokens). -/
def c5_file_new : TFile :=
  ⟨"new.jsonl", 2,
   [some (.obj [("type", .str "assistant"),
      ("message", .obj [("usage", .obj
        [("input_tokens", .int 100),
         ("cache_creation_input_tokens", .int 50),
         ("cache_read_input_tokens", .int 0)])])]),
    some (.obj [("type", .str "assistant"),
      ("message", .obj [("usage", .obj
        [("input_tokens", .int 10),
         ("cache_creation_input_tokens", .int 0),
         ("cache_read_input_tokens", .int 5)])])])]⟩

/-- C5 inputs: two project directories holding the two transcripts. -/
def c5_env : Env :=
  { credsFile := .unreadable,
    fs := [⟨"projA", [c5_file_old]⟩, ⟨"projB", [c5_file_new]⟩],
    isoParse := fun _ => none, now := 0,
    fmtClock := fun _ => "", fmtDayClock := fun _ => "" }

/-- C9 inputs: a transcript whose last assistant record exceeds the nominal
context window (300000 tokens against 200000). -/
def c9_file : TFile :=
  ⟨"big.jsonl", 3,
   [some (.obj [("type", .str "assistant"),
      ("message", .obj [("model", .str "claude-sonnet-4-5"),
        ("usage", .obj
          [("input_tokens", .int 300000),
           ("cache_creation_input_tokens", .int 0),
           ("cache_read_input_tokens", .int 0)])])])]⟩

/-- C9 inputs: environment with that transcript. -/
def c9_env : Env :=
  { credsFile := .unreadable, fs := [⟨"proj", [c9_file]⟩],
    isoParse := fun _ => none, now := 0,
    fmtClock := fun _ => "", fmtDayClock := fun _ => "" }

/-- C10 inputs: a credentials file carrying a subscription type but no
access token, so loading fails after parsing. -/
def c10_file : FileRead :=
  .readOk (some (.obj [("claudeAiOauth",
    .obj [("subscriptionType", .str "max_5x")])]))

/-- C10 inputs: environment pointing at that file. -/
def c10_env : Env :=
  { credsFile := c10_file, fs := [], isoParse := fun _ => none, now := 0,
    fmtClock := fun _ => "", fmtDayClock := fun _ => "" }

/-- C10 inputs: state holding credentials from an earlier successful load. -/
def c10_state : PluginState :=
  { initialState with accessToken := some "abc", planName := some "Pro" }

lemma hasSubstring_true_iff (n h : List Char) :
    hasSubstring n h = true ↔ n <:+: h := by
  induction h with
  | nil => simp [hasSubstring, List.isEmpty_iff, List.infix_nil]
  | cons c cs ih =>
    simp [hasSubstring, Bool.or_eq_true, ih, List.infix_cons_iff,
      List.isPrefixOf_iff_prefix]

lemma load_credentials_ok_iff (file : FileRead) :
    (load_credentials file).ok = (load_credentials file).accessToken.isSome := by
  unfold load_credentials
  repeat' split
  all_goals rfl

lemma read_context_authRetryCount (env : Env) (s : PluginState) :
    (claude_status_read_context env s).authRetryCount = s.authRetryCount := by
  unfold claude_status_read_context
  split <;> rfl

lemma read_context_hasCredentialsError (env : Env) (s : PluginState) :
    (claude_status_read_context env s).hasCredentialsError = s.hasCredentialsError := by
  unfold claude_status_read_context
  split <;> rfl

lemma applyFiveHour_authRetryCount (env : Env) (w : Option (List (String × Json)))
    (s : PluginState) : (applyFiveHour env w s).authRetryCount = s.authRetryCount := by
  cases w with
  | none => rfl
  | some win =>
    cases h : getStringMember win "resets_at" with
    | none => simp [applyFiveHour, h]
    | some rs =>
      cases h2 : env.isoParse rs with
      | none => simp [applyFiveHour, h, h2]
      | some t => simp [applyFiveHour, h, h2]

lemma applyFiveHour_hasCredentialsError (env : Env) (w : Option (List (String × Json)))
    (s : PluginState) :
    (applyFiveHour env w s).hasCredentialsError = s.hasCredentialsError := by
  cases w with
  | none => rfl
  | some win =>
    cases h : getStringMember win "resets_at" with
    | none => simp [applyFiveHour, h]
    | some rs =>
      cases h2 : env.isoParse rs with
      | none => simp [applyFiveHour, h, h2]
      | some t => simp [applyFiveHour, h, h2]

lemma applySevenDay_authRetryCount (env : Env) (w : Option (List (String × Json)))
    (s : PluginState) : (applySevenDay env w s).authRetryCount = s.authRetryCount := by
  cases w with
  | none => rfl
  | some win =>
    cases h : getStringMember win "resets_at" with
    | none => simp [applySevenDay, h]
    | some rs =>
      cases h2 : env.isoParse rs with
      | none => simp [applySevenDay, h, h2]
      | some t => simp [applySevenDay, h, h2]

lemma applySevenDay_hasCredentialsError (env : Env) (w : Option (List (String × Json)))
    (s : PluginState) :
    (applySevenDay env w s).hasCredentialsError = s.hasCredentialsError := by
  cases w with
  | none => rfl
  | some win =>
    cases h : getStringMember win "resets_at" with
    | none => simp [applySevenDay, h]
    | some rs =>
      cases h2 : env.isoParse rs with
      | none => simp [applySevenDay, h, h2]
      | some t => simp [applySevenDay, h, h2]

lemma handle_body_authRetryCount (env : Env) (b : Body) (s : PluginState) :
    (handle_body env b s).authRetryCount = s.authRetryCount := by
  cases b with
  | notJson => exact read_context_authRetryCount env s
  | json root =>
    cases root <;>
      simp [handle_body, read_context_authRetryCount, applyFiveHour_authRetryCount,
        applySevenDay_authRetryCount]

lemma handle_body_hasCredentialsError_false (env : Env) (b : Body) (s : PluginState)
    (h : s.hasCredentialsError = false) :
    (handle_body env b s).hasCredentialsError = false := by
  cases b with
  | notJson => exact (read_context_hasCredentialsError env s).trans h
  | json root =>
    cases root <;>
      simp [handle_body, read_context_hasCredentialsError,
        applyFiveHour_hasCredentialsError, applySevenDay_hasCredentialsError]

lemma fetch_usage_authRetryCount (env : Env) (s : PluginState) :
    (claude_status_fetch_usage env s).1.authRetryCount = s.authRetryCount := by
  unfold claude_status_fetch_usage
  split
  · by_cases hok : (load_credentials env.credsFile).ok = true <;> simp [hok]
  · rfl

lemma on_usage_response_count_le (env : Env) (r : HttpResult) (s : PluginState)
    (h : s.authRetryCount ≤ 2) :
    (on_usage_response env r s).1.authRetryCount ≤ 2 := by
  cases r with
  | cancelled => exact h
  | transportError => exact h
  | response status body =>
    by_cases h401 : status = 401
    · subst h401
      by_cases hge : 2 ≤ s.authRetryCount
      · simp [on_usage_response, hge]
      · by_cases hok : (load_credentials env.credsFile).ok = true <;>
          · simp [on_usage_response, hge, hok]
            omega
    · simp [on_usage_response, h401, handle_body_authRetryCount]

lemma processResponses_count_le (env : Env) (rs : List HttpResult) :
    ∀ s : PluginState, s.authRetryCount ≤ 2 →
      (processResponses env rs s).authRetryCount ≤ 2 := by
  induction rs with
  | nil => intro s h; exact h
  | cons r rest ih =>
    intro s h
    unfold processResponses
    by_cases hre : (on_usage_response env r s).2 = true
    · simp only [hre, if_true]
      by_cases hsent :
          (claude_status_fetch_usage env (on_usage_response env r s).1).2 = true
      · simp only [hsent, if_true]
        refine ih _ ?_
        rw [fetch_usage_authRetryCount]
        exact on_usage_response_count_le env r s h
      · simp only [hsent, Bool.false_eq_true, if_false]
        rw [fetch_usage_authRetryCount]
        exact on_usage_response_count_le env r s h
    · simp only [hre, if_false]
      exact on_usage_response_count_le env r s h

lemma runTick_count_le (env : Env) (rs : List HttpResult) (s : PluginState)
    (h : s.authRetryCount ≤ 2) :
    (runTick env rs s).authRetryCount ≤ 2 := by
  unfold runTick
  by_cases hsent : (claude_status_fetch_usage env s).2 = true
  · simp only [hsent, if_true]
    refine processResponses_count_le env rs _ ?_
    rw [fetch_usage_authRetryCount]
    exact h
  · simp only [hsent, Bool.false_eq_true, if_false]
    rw [fetch_usage_authRetryCount]
    exact h

/-- C1: the auth-retry state machine is bounded at 2 reload-and-retry
attempts per poll tick: from any state within the bound, every single
response and every whole tick keep the retry counter at most 2; a 401
arriving with the counter at 2 flips the credentials-error flag on and
resets the counter to 0; a non-401 response resets the counter to 0 and
leaves a false credentials-error flag false. -/
theorem C1_retry_state_machine (env : Env) (rs : List HttpResult) (s : PluginState)
    (h : s.authRetryCount ≤ 2) :
    (∀ r : HttpResult, (on_usage_response env r s).1.authRetryCount ≤ 2)
    ∧ (runTick env rs s).authRetryCount ≤ 2
    ∧ (∀ body : Body, s.authRetryCount = 2 →
        on_usage_response env (.response 401 body) s
          = ({ s with authRetryCount := 0, hasCredentialsError := true }, false))
    ∧ (∀ (status : Nat) (body : Body), status ≠ 401 →
        (on_usage_response env (.response status body) s).1.authRetryCount = 0
        ∧ (s.hasCredentialsError = false →
          (on_usage_response env (.response status body) s).1.hasCredentialsError
            = false)) := by
  refine ⟨fun r => on_usage_response_count_le env r s h,
    runTick_count_le env rs s h, ?_, ?_⟩
  · intro body h2
    simp [on_usage_response, h2]
  · intro status body hs
    constructor
    · simp [on_usage_response, hs, handle_body_authRetryCount]
    · intro hflag
      simp only [on_usage_response]
      rw [if_neg hs]
      exact handle_body_hasCredentialsError_false env body _ hflag

/-- C1 witness: from the initial state, the two-auth-failures-then-success
tick stays within the bound (via the theorem) and ends with the
credentials-error flag false and the counter 0; three consecutive auth
failures end with the flag true and the counter reset to 0. -/
theorem C1_retry_state_machine_w :
    initialState.authRetryCount ≤ 2
    ∧ (runTick c1_env c1_responses initialState).authRetryCount ≤ 2
    ∧ (runTick c1_env c1_responses initialState).hasCredentialsError = false
    ∧ (runTick c1_env c1_responses initialState).authRetryCount = 0
    ∧ (runTick c1_env c1_responses_fail initialState).hasCredentialsError = true
    ∧ (runTick c1_env c1_responses_fail initialState).authRetryCount = 0 :=
  ⟨by decide,
   (C1_retry_state_machine c1_env c1_responses initialState (by decide)).2.1,
   by decide, by decide, by decide, by decide⟩

/-- C2 counterexample: a transport error leaves the whole state unchanged —
in particular the context usage is NOT re-scanned on that tick, although a
scan of the available transcript would have produced a different context
percentage (3/40 instead of the stored 0). The claim's assertion that
context usage is still updated on that same tick fails here. -/
theorem C2_counterexample :
    (on_usage_response c2_env .transportError c2_state).1 = c2_state
    ∧ c2_state.contextPct = 0
    ∧ (claude_status_read_context c2_env c2_state).contextPct = 3 / 40
    ∧ (3 / 40 : ℚ) ≠ 0 := by
  refine ⟨rfl, rfl, ?_, by norm_num⟩
  have h1 : (claude_status_read_context c2_env c2_state).contextPct
      = if 100 < (((150 : Int) : ℚ) / ((200000 : Int) : ℚ) * 100) then (100 : ℚ)
        else ((150 : Int) : ℚ) / ((200000 : Int) : ℚ) * 100 := rfl
  rw [h1]
  norm_num

/-- C2 amended: a fetch failing with a transport (network) error leaves the
stored usage windows and the credentials-error flag exactly as they were —
and also leaves the context usage untouched, because the handler returns
before the context re-scan (context is only re-scanned on the non-error,
non-401 path). Cancelled requests behave the same way. -/
theorem C2_amended_transport_frame (env : Env) (s : PluginState) :
    on_usage_response env .transportError s = (s, false)
    ∧ on_usage_response env .cancelled s = (s, false) :=
  ⟨rfl, rfl⟩

/-- C4 counterexample: with the degenerate thresholds yellow=50, orange=25,
red=60 and pct=30, the claimed characterization "Caution iff
orange ≤ pct < red" fails: 25 ≤ 30 < 60 holds, yet the classifier returns
green (Normal), not orange (Caution). -/
theorem C4_counterexample :
    get_color 50 25 60 30 = "#5faf5f"
    ∧ ((25 : ℚ) ≤ 30 ∧ (30 : ℚ) < 60)
    ∧ "#5faf5f" ≠ "#d78700" := by
  refine ⟨by decide, by norm_num, by decide⟩

/-- C4 amended: the cutoffs are tested in sequence, so Normal (green) iff
pct < yellow; Warning (yellow) iff yellow ≤ pct < orange; Caution (orange)
iff yellow ≤ pct, orange ≤ pct and pct < red; Critical (red) iff pct is at
or above all three cutoffs — for degenerate (non-ascending) orderings an
earlier tier's cutoff wins even when a later tier's range also contains
pct. -/
theorem C4_amended_classifier (y o r : Int) (p : ℚ) :
    (get_color y o r p = "#5faf5f" ↔ p < (y : ℚ))
    ∧ (get_color y o r p = "#d7af5f" ↔ (y : ℚ) ≤ p ∧ p < (o : ℚ))
    ∧ (get_color y o r p = "#d78700" ↔
        (y : ℚ) ≤ p ∧ (o : ℚ) ≤ p ∧ p < (r : ℚ))
    ∧ (get_color y o r p = "#d75f5f" ↔
        (y : ℚ) ≤ p ∧ (o : ℚ) ≤ p ∧ (r : ℚ) ≤ p) := by
  unfold get_color
  split_ifs with h1 h2 h3 <;>
    refine ⟨?_, ?_, ?_, ?_⟩ <;>
    constructor <;>
    intro hx <;>
    first
      | rfl
      | linarith
      | exact absurd hx (by decide)
      | exact ⟨by linarith, by linarith⟩
      | exact ⟨by linarith, by linarith, by linarith⟩
      | (exfalso; rcases hx with ⟨a, b, c⟩; linarith)
      | (exfalso; rcases hx with ⟨a, b⟩; linarith)
      | (exfalso; linarith)

/-- C6: the code accepts an access token equal to the empty string —
`load_credentials` returns TRUE and caches the empty token, although the
claim (and the plugin's own `validate_creds_file`, which reports "Missing
accessToken" for it) requires the file to be rejected as invalid. The
remaining conjuncts confirm the claim's correct parts: unreadable/missing
files fail as NoCredentials, unparsable content and a missing token fail as
InvalidCredentials. -/
theorem C6_empty_token_bug :
    (load_credentials c6_file).ok = true
    ∧ (load_credentials c6_file).accessToken = some ""
    ∧ validate_creds_file c6_file = .invalid "Missing accessToken"
    ∧ load_error_kind .missing = some .NoCredentials
    ∧ load_error_kind .unreadable = some .NoCredentials
    ∧ load_error_kind (.readOk none) = some .InvalidCredentials
    ∧ load_error_kind c6_file_notoken = some .InvalidCredentials := by
  decide

/-- C7 counterexample: a usage window whose reset instant is a Unix epoch
integer is not parsed — the stored reset string is left unchanged — while
the same instant encoded as an ISO-8601 string is accepted and produces the
formatted reset; the two encodings therefore do not produce the same
stored reset, refuting the claim that both are accepted. -/
theorem C7_counterexample :
    (applyFiveHour c7_env (some c7_w_int) c7_state).fiveHourResetStr = some "(old)"
    ∧ (applyFiveHour c7_env (some c7_w_str) c7_state).fiveHourResetStr
        = some "(2h 0m)"
    ∧ (some "(old)" : Option String) ≠ some "(2h 0m)" := by
  refine ⟨by decide, by decide, by decide⟩

/-- C7 amended: the parser accepts only the ISO-8601 string encoding of a
reset instant; whenever `resets_at` is not a string member (absent, or a
Unix epoch integer), the window handler stores the utilization and leaves
every reset field unchanged, for both usage windows. -/
theorem C7_amended_iso_only (env : Env) (s : PluginState)
    (w : List (String × Json))
    (h : getStringMember w "resets_at" = none) :
    applyFiveHour env (some w) s
      = { s with fiveHourPctVal := getDoubleMember w "utilization" }
    ∧ applySevenDay env (some w) s
      = { s with sevenDayPctVal := getDoubleMember w "utilization" } := by
  constructor
  · simp [applyFiveHour, h]
  · simp [applySevenDay, h]

/-- C7 witness: the integer-encoded window satisfies the hypothesis and the
handler only stores the utilization. -/
theorem C7_amended_iso_only_w :
    getStringMember c7_w_int "resets_at" = none
    ∧ applyFiveHour c7_env (some c7_w_int) c7_state
        = { c7_state with fiveHourPctVal := getDoubleMember c7_w_int "utilization" } :=
  ⟨by decide, (C7_amended_iso_only c7_env c7_state c7_w_int (by decide)).1⟩

/-- C8: with ascending thresholds, the classifier is monotonic
non-decreasing in the percentage along the severity order Normal <
Warning < Caution < Critical (color ranks 0,1,2,3). -/
theorem C8_classifier_monotone (y o r : Int) (p1 p2 : ℚ)
    (hyo : y < o) (hor : o < r) (hp : p1 ≤ p2) :
    colorRank (get_color y o r p1) ≤ colorRank (get_color y o r p2) := by
  unfold get_color
  split_ifs <;> first | decide | (exfalso; linarith)

/-- C8 witness: at thresholds (25, 50, 75) and percentages 10 ≤ 80. -/
theorem C8_classifier_monotone_w :
    (25 : Int) < 50 ∧ (50 : Int) < 75 ∧ (10 : ℚ) ≤ 80
    ∧ colorRank (get_color 25 50 75 10) ≤ colorRank (get_color 25 50 75 80) :=
  ⟨by decide, by decide, by norm_num,
   C8_classifier_monotone 25 50 75 10 80 (by decide) (by decide) (by norm_num)⟩

/-- C10 counterexample: loading a readable credentials file that has a
subscription type but no access token fails — yet the store afterwards
holds a plan name freshly derived from that file ("Max"), refuting the
claim that after any failed load the store holds no plan name. (The prior
token "abc" and plan "Pro" are indeed both dropped.) -/
theorem C10_counterexample :
    (load_credentials_apply c10_env c10_state).2 = false
    ∧ (load_credentials_apply c10_env c10_state).1.accessToken = none
    ∧ (load_credentials_apply c10_env c10_state).1.planName = some "Max"
    ∧ (some "Max" : Option String) ≠ none := by
  decide

/-- C10 amended: every load first drops the cached token and plan name, so
the post-load fields depend only on the file, never on the prior state;
after a load that returns failure the store holds no bearer token — but the
plan name is whatever the failed parse derived from the new file (possibly
set, when only the access token was missing). -/
theorem C10_amended_drop_on_failure (env : Env) (s : PluginState)
    (h : (load_credentials env.credsFile).ok = false) :
    (load_credentials_apply env s).1.accessToken = none
    ∧ (load_credentials_apply env s).2 = false
    ∧ (load_credentials_apply env s).1.planName
        = (load_credentials env.credsFile).planName := by
  refine ⟨?_, h, rfl⟩
  have h2 := load_credentials_ok_iff env.credsFile
  rw [h] at h2
  cases hT : (load_credentials env.credsFile).accessToken with
  | none => exact hT
  | some t => rw [hT] at h2; simp at h2

/-- C10 witness: the token-less file fails to load and the token field ends
up empty. -/
theorem C10_amended_drop_on_failure_w :
    (load_credentials (Env.credsFile c10_env)).ok = false
    ∧ (load_credentials_apply c10_env c10_state).1.accessToken = none :=
  ⟨by decide, (C10_amended_drop_on_failure c10_env c10_state (by decide)).1⟩

lemma load_credentials_oauth_red (tok sub : String) :
    load_credentials (c3_oauth_file tok sub)
      = ⟨some tok,
         if hasSubstring "max".toList sub.toList then some "Max"
         else if hasSubstring "pro".toList sub.toList then some "Pro"
         else none,
         true⟩ := rfl

/-- C3 counterexample: the subscription type "MAX" yields no plan name
(tier Unknown) although the claim's case-insensitive reading requires tier
Max — `g_strstr_len` is a case-sensitive search. -/
theorem C3_counterexample :
    (load_credentials (c3_oauth_file "abc" "MAX")).planName = none
    ∧ (load_credentials (c3_oauth_file "abc" "MAX")).accessToken = some "abc"
    ∧ (load_credentials (c3_oauth_file "abc" "MAX")).ok = true
    ∧ (none : Option String) ≠ some "Max" := by
  decide

/-- C3 amended: the plan tier is inferred by a case-sensitive substring
match: a subscription type containing the lowercase substring "max" yields
Max; otherwise one containing the lowercase substring "pro" yields Pro;
any other string yields no plan (Unknown); an absent subscription-type
field is not an error (the load still succeeds with no plan). -/
theorem C3_amended_tier_case_sensitive (tok sub : String) :
    ((load_credentials (c3_oauth_file tok sub)).planName = some "Max"
      ↔ "max".toList <:+: sub.toList)
    ∧ ((load_credentials (c3_oauth_file tok sub)).planName = some "Pro"
      ↔ ¬("max".toList <:+: sub.toList) ∧ "pro".toList <:+: sub.toList)
    ∧ ((load_credentials (c3_oauth_file tok sub)).planName = none
      ↔ ¬("max".toList <:+: sub.toList) ∧ ¬("pro".toList <:+: sub.toList))
    ∧ (load_credentials (c3_oauth_file tok sub)).ok = true
    ∧ (load_credentials (c3_oauth_file_nosub tok)).planName = none
    ∧ (load_credentials (c3_oauth_file_nosub tok)).ok = true := by
  rw [load_credentials_oauth_red tok sub]
  by_cases hM : hasSubstring "max".toList sub.toList = true
  · rw [if_pos hM]
    exact ⟨iff_of_true rfl ((hasSubstring_true_iff _ _).mp hM),
      iff_of_false (show ¬((some "Max" : Option String) = some "Pro") by decide)
        (fun hc => hc.1 ((hasSubstring_true_iff _ _).mp hM)),
      iff_of_false (show ¬((some "Max" : Option String) = none) by decide)
        (fun hc => hc.1 ((hasSubstring_true_iff _ _).mp hM)),
      rfl, rfl, rfl⟩
  · rw [if_neg hM]
    by_cases hP : hasSubstring "pro".toList sub.toList = true
    · rw [if_pos hP]
      exact ⟨iff_of_false (show ¬((some "Pro" : Option String) = some "Max") by decide)
          (fun hc => hM ((hasSubstring_true_iff _ _).mpr hc)),
        iff_of_true rfl
          ⟨fun hc => hM ((hasSubstring_true_iff _ _).mpr hc),
           (hasSubstring_true_iff _ _).mp hP⟩,
        iff_of_false (show ¬((some "Pro" : Option String) = none) by decide)
          (fun hc => hc.2 ((hasSubstring_true_iff _ _).mp hP)),
        rfl, rfl, rfl⟩
    · rw [if_neg hP]
      exact ⟨iff_of_false (show ¬((none : Option String) = some "Max") by decide)
          (fun hc => hM ((hasSubstring_true_iff _ _).mpr hc)),
        iff_of_false (show ¬((none : Option String) = some "Pro") by decide)
          (fun hc => hP ((hasSubstring_true_iff _ _).mpr hc.2)),
        iff_of_true rfl
          ⟨fun hc => hM ((hasSubstring_true_iff _ _).mpr hc),
           fun hc => hP ((hasSubstring_true_iff _ _).mpr hc)⟩,
        rfl, rfl, rfl⟩

lemma scanStep_triple (acc : Int × Int × Int × Option String) (l : Option Json) :
    tripleOf (scanStep acc l) = qualStep (tripleOf acc) l := by
  cases l with
  | none => rfl
  | some root =>
    cases root with
    | obj kvs =>
      cases hty : getStringMember kvs "type" with
      | none => simp [scanStep, qualStep, qualUsage, hty, tripleOf]
      | some ty =>
        by_cases hA : ty = "assistant"
        · subst hA
          cases hmsg : getObjectMember kvs "message" with
          | none => simp [scanStep, qualStep, qualUsage, hty, hmsg, tripleOf]
          | some msg =>
            cases husage : getObjectMember msg "usage" with
            | none => simp [scanStep, qualStep, qualUsage, hty, hmsg, husage, tripleOf]
            | some usage =>
              simp [scanStep, qualStep, qualUsage, hty, hmsg, husage, tripleOf]
        · simp [scanStep, qualStep, qualUsage, hty, hA, tripleOf]
    | null => rfl
    | bool b => rfl
    | int n => rfl
    | num q => rfl
    | str st => rfl
    | arr xs => rfl

lemma scan_fold_triple (lines : List (Option Json)) :
    ∀ acc, tripleOf (lines.foldl scanStep acc) = lines.foldl qualStep (tripleOf acc) := by
  induction lines with
  | nil => intro acc; rfl
  | cons l rest ih =>
    intro acc
    simp only [List.foldl_cons]
    rw [ih, scanStep_triple]

lemma qual_fold_getD (lines : List (Option Json)) :
    ∀ (o : Option (Int × Int × Int)) (t0 : Int × Int × Int),
      lines.foldl qualStep (o.getD t0)
        = (lines.foldl
            (fun a l => match qualUsage l with | some t => some t | none => a) o).getD t0 := by
  induction lines with
  | nil => intro o t0; rfl
  | cons l rest ih =>
    intro o t0
    simp only [List.foldl_cons]
    cases hq : qualUsage l with
    | none =>
      have h1 : qualStep (o.getD t0) l = o.getD t0 := by simp [qualStep, hq]
      rw [h1]
      exact ih o t0
    | some t =>
      have h1 : qualStep (o.getD t0) l = t := by simp [qualStep, hq]
      rw [h1]
      exact ih (some t) t0

lemma scan_last_wins (lines : List (Option Json)) :
    tripleOf (scanTranscript lines) = (lastQualTriple lines).getD (0, 0, 0) := by
  unfold scanTranscript lastQualTriple
  rw [scan_fold_triple]
  exact qual_fold_getD lines none (0, 0, 0)

lemma foldl_filter_jsonl (files : List TFile) :
    ∀ acc : Option TFile × Nat,
      files.foldl (fun a f => if hasSuffixStr f.name ".jsonl" then pickLatest a f else a) acc
        = (files.filter (fun f => hasSuffixStr f.name ".jsonl")).foldl pickLatest acc := by
  induction files with
  | nil => intro acc; rfl
  | cons f rest ih =>
    intro acc
    by_cases hf : hasSuffixStr f.name ".jsonl" = true <;>
      simp [List.filter_cons, hf, ih]

lemma find_latest_flat (fs : List Project) :
    ∀ acc : Option TFile × Nat,
      fs.foldl
        (fun acc p =>
          if isHiddenEntry p.name then acc
          else p.files.foldl
            (fun a f => if hasSuffixStr f.name ".jsonl" then pickLatest a f else a) acc)
        acc
        = (eligible_transcripts fs).foldl pickLatest acc := by
  induction fs with
  | nil => intro acc; rfl
  | cons p rest ih =>
    intro acc
    rw [List.foldl_cons]
    by_cases hp : isHiddenEntry p.name = true
    · rw [if_pos hp]
      have h2 : eligible_transcripts (p :: rest) = eligible_transcripts rest := by
        simp [eligible_transcripts, List.filter_cons, hp]
      rw [h2]
      exact ih acc
    · rw [if_neg hp]
      have hp2 : isHiddenEntry p.name = false := by
        revert hp; cases isHiddenEntry p.name <;> simp
      rw [foldl_filter_jsonl p.files acc]
      have h2 : eligible_transcripts (p :: rest)
          = (p.files.filter (fun f => hasSuffixStr f.name ".jsonl"))
            ++ eligible_transcripts rest := by
        simp [eligible_transcripts, List.filter_cons, hp2]
      rw [h2, List.foldl_append]
      exact ih _

lemma pickLatest_snd_mono (acc : Option TFile × Nat) (f : TFile) :
    acc.2 ≤ (pickLatest acc f).2 := by
  unfold pickLatest
  by_cases hlt : acc.2 < f.mtime
  · rw [if_pos hlt]; exact le_of_lt hlt
  · rw [if_neg hlt]

lemma pickLatest_elem_le (acc : Option TFile × Nat) (f : TFile) :
    f.mtime ≤ (pickLatest acc f).2 := by
  unfold pickLatest
  by_cases hlt : acc.2 < f.mtime
  · rw [if_pos hlt]
  · rw [if_neg hlt]; omega

lemma pickLatest_inv (acc : Option TFile × Nat) (f : TFile)
    (h : ∀ g, acc.1 = some g → g.mtime = acc.2) :
    ∀ g, (pickLatest acc f).1 = some g → g.mtime = (pickLatest acc f).2 := by
  unfold pickLatest
  by_cases hlt : acc.2 < f.mtime
  · rw [if_pos hlt]
    intro g hg
    simp only [Option.some.injEq] at hg
    rw [← hg]
  · rw [if_neg hlt]; exact h

lemma pickLatest_fold_spec (l : List TFile) :
    ∀ acc : Option TFile × Nat,
      acc.2 ≤ (l.foldl pickLatest acc).2
      ∧ (∀ g ∈ l, g.mtime ≤ (l.foldl pickLatest acc).2)
      ∧ ((∀ g, acc.1 = some g → g.mtime = acc.2) →
          ∀ g, (l.foldl pickLatest acc).1 = some g →
            g.mtime = (l.foldl pickLatest acc).2) := by
  induction l with
  | nil =>
    intro acc
    refine ⟨le_refl _, ?_, fun h => h⟩
    intro g hg
    exact absurd hg (List.not_mem_nil g)
  | cons f rest ih =>
    intro acc
    obtain ⟨ih1, ih2, ih3⟩ := ih (pickLatest acc f)
    refine ⟨le_trans (pickLatest_snd_mono acc f) ih1, ?_, ?_⟩
    · intro g hg
      rcases List.mem_cons.mp hg with hg | hg
      · subst hg; exact le_trans (pickLatest_elem_le acc g) ih1
      · exact ih2 g hg
    · intro hinv
      exact ih3 (pickLatest_inv acc f hinv)

lemma find_latest_max (fs : List Project) (file : TFile)
    (h : find_latest_transcript fs = some file) :
    ∀ g ∈ eligible_transcripts fs, g.mtime ≤ file.mtime := by
  unfold find_latest_transcript at h
  rw [find_latest_flat fs ((none : Option TFile), 0)] at h
  obtain ⟨-, h2, h3⟩ :=
    pickLatest_fold_spec (eligible_transcripts fs) ((none : Option TFile), 0)
  have hmt := h3 (fun g hg => Option.noConfusion hg) file h
  intro g hg
  rw [hmt]
  exact h2 g hg

/-- C5 counterexample: with no project directories at all, the scanner's
early return only resets the context percentage to 0 — the stored token
count keeps its previous value (500 here) instead of the 0 the claim
requires for the no-project case. -/
theorem C5_counterexample :
    (claude_status_read_context c5_empty_env c5_stale_state).contextTokens = 500
    ∧ (claude_status_read_context c5_empty_env c5_stale_state).contextPct = 0
    ∧ (500 : Int) ≠ 0 := by
  refine ⟨rfl, rfl, by decide⟩

/-- C5 amended: when a transcript file is selected, the scanner streams it
line by line ignoring unparseable lines, and the stored token count equals
the sum of the three counters of the LAST assistant record carrying a usage
sub-object (last-wins, 0 if no qualifying record); the selected file's
modification time is greatest among all eligible transcripts (`.jsonl`
files of non-hidden project directories); when NO transcript is found, only
the context percentage is reset to 0 — the previously stored token count,
window size and model are left as they were. -/
theorem C5_amended_scanner (env : Env) (s : PluginState) (file : TFile)
    (h : find_latest_transcript env.fs = some file) :
    (claude_status_read_context env s).contextTokens
        = sumTriple ((lastQualTriple file.lines).getD (0, 0, 0))
    ∧ (∀ g ∈ eligible_transcripts env.fs, g.mtime ≤ file.mtime)
    ∧ (∀ (env2 : Env) (s2 : PluginState), find_latest_transcript env2.fs = none →
        claude_status_read_context env2 s2 = { s2 with contextPct := 0 }) := by
  refine ⟨?_, find_latest_max env.fs file h, ?_⟩
  · unfold claude_status_read_context
    rw [h]
    show sumTriple (tripleOf (scanTranscript file.lines)) = _
    rw [scan_last_wins]
  · intro env2 s2 h2
    unfold claude_status_read_context
    rw [h2]

/-- C5 witness: with two transcripts modified at times 1 < 2, the newer one
is selected; its two qualifying records (100+50+0 then 10+0+5) yield the
last record's sum 15, not an accumulation. -/
theorem C5_amended_scanner_w :
    find_latest_transcript c5_env.fs = some c5_file_new
    ∧ (claude_status_read_context c5_env initialState).contextTokens
        = sumTriple ((lastQualTriple c5_file_new.lines).getD (0, 0, 0))
    ∧ (claude_status_read_context c5_env initialState).contextTokens = 15 :=
  ⟨rfl,
   (C5_amended_scanner c5_env initialState c5_file_new rfl).1,
   by rw [(C5_amended_scanner c5_env initialState c5_file_new rfl).1]; decide⟩

lemma ite_clamp_eq_min (x : ℚ) :
    (if 100 < x then (100 : ℚ) else x) = min 100 x := by
  by_cases hcmp : 100 < x
  · rw [if_pos hcmp]; exact (min_eq_left (le_of_lt hcmp)).symm
  · rw [if_neg hcmp]; exact (min_eq_right (not_lt.mp hcmp)).symm

/-- C9: the model-to-window table maps every (and any absent) model
identifier to the 200000-token default, and the stored context percentage
is exactly min(100, tokens / window * 100); in particular it never exceeds
100 even when the token count exceeds the window. -/
theorem C9_window_and_clamp (env : Env) (s : PluginState) (file : TFile)
    (h : find_latest_transcript env.fs = some file) :
    (∀ m : Option String, get_context_window_for_model m = 200000)
    ∧ (claude_status_read_context env s).contextWindowSize = 200000
    ∧ (claude_status_read_context env s).contextPct
        = min 100 (((claude_status_read_context env s).contextTokens : ℚ)
            / (((claude_status_read_context env s).contextWindowSize : Int) : ℚ) * 100)
    ∧ (claude_status_read_context env s).contextPct ≤ 100 := by
  have hw : ∀ m : Option String, get_context_window_for_model m = 200000 := by
    intro m; cases m <;> rfl
  refine ⟨hw, ?_, ?_, ?_⟩ <;> unfold claude_status_read_context <;> rw [h]
  · exact hw _
  · exact ite_clamp_eq_min _
  · exact (ite_clamp_eq_min _).trans_le (min_le_left _ _)

/-- C9 witness: a transcript whose last assistant record holds 300000
tokens against the 200000 default window is clamped to exactly 100. -/
theorem C9_window_and_clamp_w :
    find_latest_transcript c9_env.fs = some c9_file
    ∧ (claude_status_read_context c9_env initialState).contextPct ≤ 100
    ∧ (claude_status_read_context c9_env initialState).contextPct = 100 := by
  refine ⟨rfl, (C9_window_and_clamp c9_env initialState c9_file rfl).2.2.2, ?_⟩
  have h1 : (claude_status_read_context c9_env initialState).contextPct
      = if 100 < (((300000 : Int) : ℚ) / ((200000 : Int) : ℚ) * 100) then (100 : ℚ)
        else ((300000 : Int) : ℚ) / ((200000 : Int) : ℚ) * 100 := rfl
  rw [h1]
  norm_num
